import Mathlib

/-!
Verification of the scan-decide-act core of the Inventory
Auto-Activate/Deactivate app.

The definitions below are a shallow embedding of the TypeScript sources:

* `src/app/services/inventory.server.ts` — `scanOldProducts` (the manual-path
  classifier and its paging loop) and `deactivateProducts`;
* `src/app/services/scheduler.server.ts` — `shouldRun`, `runAutoScan`,
  and `scanAndDeactivate` (the scheduled classifier page loop and the batch
  mutation executor with its cooperative stop check);
* `src/app/routes/app.manual.tsx` — the manual deactivation action;
* `src/app/routes/webhooks.inventory.update.tsx` — the reactivation webhook.

Timestamps are modelled as `Nat` milliseconds since the Unix epoch (the value
of `Date.prototype.getTime` for the post-1970 instants the app handles), and
the remote GraphQL service is modelled by explicit page lists and per-call
outcome oracles, so that every function below is executable.
-/

namespace InventoryApp

/-! ## GraphQL page records consumed by the scanners -/

/-- One entry of `quantities(names: ["available"])` on an inventory level. -/
structure Quantity where
  name : String
  quantity : Int
deriving DecidableEq, Repr

/-- The node of `inventoryLevels(first: 1).edges[0]`, i.e. the most recent
inventory level of a variant: its `updatedAt` (as `new Date(_).getTime()`,
ms since epoch) and its quantities. -/
structure InventoryLevel where
  updatedAt : Nat
  quantities : List Quantity
deriving DecidableEq, Repr

/-- `variant.inventoryItem`: the per-variant tracked flag (absent fields are
`none`) and the first inventory-level node, when present. -/
structure InventoryItem where
  tracked : Option Bool
  level : Option InventoryLevel
deriving DecidableEq, Repr

/-- One variant node of a product page record. -/
structure Variant where
  sku : Option String
  inventoryItem : Option InventoryItem
deriving DecidableEq, Repr

/-- One product node of a `getZeroStockProducts` page. `productType := ""`
models a null or empty category (both are falsy in the source, so they
behave identically in every use). -/
structure Product where
  id : String
  title : String
  handle : String
  featuredImage : Option String
  productType : String
  variants : List Variant
deriving DecidableEq, Repr

/-- The shape `scanOldProducts` pushes onto its `candidates` array. -/
structure ProductCandidate where
  id : String
  title : String
  handle : String
  featuredImage : Option String
  sku : String
  daysInactive : Nat
deriving DecidableEq, Repr

/-- One fetched page: `data.products.nodes` and `pageInfo.hasNextPage`. -/
structure PageResp where
  nodes : List Product
  hasNextPage : Bool
deriving DecidableEq, Repr

/-! ## String helpers used by the gift-card exclusion -/

/-- Embedding of JavaScript `String.prototype.includes` on char lists:
some suffix of `s` starts with `pat`. -/
def charListContains (pat : List Char) : List Char → Bool
  | [] => pat.isEmpty
  | c :: rest => List.isPrefixOf pat (c :: rest) || charListContains pat rest

/-- `s.includes(pat)` of JavaScript. -/
def strIncludes (s pat : String) : Bool :=
  charListContains pat.data s.data

/-- `c.toLowerCase()` on one character: the product categories involved are
ASCII, where JavaScript `toLowerCase` maps A-Z to a-z and fixes the rest. -/
def charLower (c : Char) : Char :=
  if c.toNat ≥ 65 ∧ c.toNat ≤ 90 then Char.ofNat (c.toNat + 32) else c

/-- `s.toLowerCase()` of JavaScript, on ASCII strings. -/
def strToLower (s : String) : String :=
  ⟨s.data.map charLower⟩

/-- The gift-card test of `scanOldProducts` (inventory.server.ts:79-85):
`if (product.productType) { const type = productType.toLowerCase();
if (type.includes("gift card") || type === "giftcard") continue; }`. -/
def isGiftCardManual (productType : String) : Bool :=
  if productType == "" then false
  else
    let t := strToLower productType
    strIncludes t "gift card" || t == "giftcard"

/-- The gift-card test of `scanAndDeactivate` (scheduler.server.ts:186):
`productType && (productType.toLowerCase().includes("gift card") ||
productType === "giftcard")` — note the exact match is NOT lowercased here. -/
def isGiftCardAuto (productType : String) : Bool :=
  if productType == "" then false
  else strIncludes (strToLower productType) "gift card" || productType == "giftcard"

/-! ## The per-variant scan shared by both classifiers

Both classifiers run the same variant loop; they differ only in how the
`available` quantity is read off the level node, so the loop is parametrised
by that extraction. -/

/-- `scanOldProducts` (inventory.server.ts:103):
`level.quantities.find(q => q.name === "available")?.quantity || 0`. -/
def availableManual (lvl : InventoryLevel) : Int :=
  match lvl.quantities.find? (fun q => q.name == "available") with
  | some q => q.quantity
  | none => 0

/-- `scanAndDeactivate` (scheduler.server.ts:200-201):
`const quantities = level.quantities || [];
quantities.length > 0 ? quantities[0].quantity : 0`. -/
def availableAuto (lvl : InventoryLevel) : Int :=
  match lvl.quantities with
  | [] => 0
  | q :: _ => q.quantity

/-- `variant.inventoryItem?.tracked` of the source. -/
def trackedOf (v : Variant) : Option Bool :=
  v.inventoryItem.bind fun it => it.tracked

/-- `variant.inventoryItem?.inventoryLevels?.edges?.[0]?.node` of the source. -/
def levelOf (v : Variant) : Option InventoryLevel :=
  v.inventoryItem.bind fun it => it.level

/-- The inner `for (const variant of product.variants.nodes)` loop of both
classifiers. `none` models the loop breaking with `allVariantsZero = false`
(an explicitly untracked variant, or a positive available quantity);
`some m` models the loop finishing with `mostRecentUpdate = m`, starting
from accumulator `most` (`0` at the call site). A variant without a level
node is skipped (`continue`). -/
def scanVariants (avail : InventoryLevel → Int) : List Variant → Nat → Option Nat
  | [], most => some most
  | v :: vs, most =>
    if trackedOf v == some false then none
    else
      match levelOf v with
      | none => scanVariants avail vs most
      | some lvl =>
        if 0 < avail lvl then none
        else scanVariants avail vs (max most lvl.updatedAt)

/-- `minDaysInactive * 24 * 60 * 60 * 1000` — the cutoff in ms. -/
def cutoffMsOf (minDays : Nat) : Nat :=
  minDays * (24 * 60 * 60 * 1000)

/-- `product.variants.nodes[0]?.sku || ""` of the source. -/
def skuOf (p : Product) : String :=
  (p.variants.head?.bind fun v => v.sku).getD ""

/-- Per-product body of the manual classifier loop
(inventory.server.ts:74-132): skip gift cards, run the variant scan, and
when `allVariantsZero && mostRecentUpdate > 0` and `now - mostRecentUpdate >
cutoffMs`, produce the pushed candidate with
`daysInactive = floor(diff / 86400000)`. -/
def classifyManual (now cutoff : Nat) (p : Product) : Option ProductCandidate :=
  if isGiftCardManual p.productType then none
  else
    match scanVariants availableManual p.variants 0 with
    | none => none
    | some most =>
      if 0 < most then
        let diff := now - most
        if cutoff < diff then
          some { id := p.id, title := p.title, handle := p.handle,
                 featuredImage := p.featuredImage, sku := skuOf p,
                 daysInactive := diff / 86400000 }
        else none
      else none

/-- Per-product body of the scheduled classifier loop
(scheduler.server.ts:184-218): same qualification logic; a qualifying
product is pushed whole with its `daysInactive` attached. -/
def classifyAuto (now cutoff : Nat) (p : Product) : Option (Product × Nat) :=
  if isGiftCardAuto p.productType then none
  else
    match scanVariants availableAuto p.variants 0 with
    | none => none
    | some most =>
      if 0 < most then
        let diff := now - most
        if cutoff < diff then some (p, diff / 86400000)
        else none
      else none

/-- The manual classifier applied to one page of nodes, in order. -/
def classifyPageManual (now cutoff : Nat) : List Product → List ProductCandidate
  | [] => []
  | p :: ps =>
    match classifyManual now cutoff p with
    | some c => c :: classifyPageManual now cutoff ps
    | none => classifyPageManual now cutoff ps

/-- The scheduled classifier applied to one page of nodes, in order. -/
def classifyPageAuto (now cutoff : Nat) : List Product → List (Product × Nat)
  | [] => []
  | p :: ps =>
    match classifyAuto now cutoff p with
    | some c => c :: classifyPageAuto now cutoff ps
    | none => classifyPageAuto now cutoff ps

/-- The paging loop of `scanOldProducts` (inventory.server.ts:62-139) over
the sequence of pages the remote would serve: accumulate each page's
candidates, then stop when the remote reports no further page — or, by the
safety break at line 138, as soon as `candidates.length > 500`. -/
def scanPagesManual (now cutoff : Nat) : List PageResp → List ProductCandidate → List ProductCandidate
  | [], acc => acc
  | pg :: rest, acc =>
    let acc2 := acc ++ classifyPageManual now cutoff pg.nodes
    if 500 < acc2.length then acc2
    else if pg.hasNextPage then scanPagesManual now cutoff rest acc2
    else acc2

/-- The paging loop of `scanAndDeactivate` (scheduler.server.ts:170-228):
like the manual one but with no 500-candidate safety break. A page-level
error breaks the loop, which is modelled by truncating the page list. -/
def autoScanPages (now cutoff : Nat) : List PageResp → List (Product × Nat)
  | [] => []
  | pg :: rest =>
    classifyPageAuto now cutoff pg.nodes ++
      (if pg.hasNextPage then autoScanPages now cutoff rest else [])

/-! ## A fixed-offset (UTC) model of the JavaScript `Date` operations

`shouldRun` (scheduler.server.ts:100-115) copies `lastRunAt` and advances it
with `setMinutes(getMinutes() + frequency)` or `setDate(getDate() +
frequency)`. We model a `Date` by its epoch value `t : Nat` (ms) and the
component operations per the ECMAScript algorithms with a fixed zero UTC
offset (the embedding has no time-zone database, so local time = UTC). -/

/-- ms per minute. -/
def msPerMinute : Nat := 60 * 1000

/-- ms per day. -/
def msPerDay : Nat := 24 * 60 * 60 * 1000

/-- ECMAScript `MinFromTime`: `Date.prototype.getMinutes` at zero offset. -/
def getMinutes (t : Nat) : Nat :=
  t / msPerMinute % 60

/-- ECMAScript `Date.prototype.setMinutes t m` (seconds and ms preserved):
`MakeDate(Day(t), MakeTime(HourFromTime(t), m, SecFromTime(t),
msFromTime(t)))`, i.e. `t - MinFromTime(t)*60000 + m*60000`. The source only
calls it with `m = getMinutes t + frequency ≥ getMinutes t`. -/
def setMinutes (t m : Nat) : Nat :=
  t - getMinutes t * msPerMinute + m * msPerMinute

/-- Gregorian civil date `(year, month, day)` of an epoch day number
(days since 1970-01-01); the standard `civil_from_days` algorithm,
restricted to non-negative day numbers. -/
def civilFromDays (z0 : Nat) : Nat × Nat × Nat :=
  let z := z0 + 719468
  let era := z / 146097
  let doe := z % 146097
  let yoe := (doe - doe / 1460 + doe / 36524 - doe / 146097) / 365
  let y := yoe + era * 400
  let doy := doe - (365 * yoe + yoe / 4 - yoe / 100)
  let mp := (5 * doy + 2) / 153
  let d := doy - (153 * mp + 2) / 5 + 1
  let m := if mp < 10 then mp + 3 else mp - 9
  (if m ≤ 2 then y + 1 else y, m, d)

/-- ECMAScript `DateFromTime`: `Date.prototype.getDate` (day of month) at
zero offset. -/
def getDate (t : Nat) : Nat :=
  (civilFromDays (t / msPerDay)).2.2

/-- ECMAScript `Date.prototype.setDate t n`:
`MakeDate(MakeDay(YearFromTime(t), MonthFromTime(t), n), TimeWithinDay(t))`.
`MakeDay(y, m, n)` is the epoch day of the first of month `(y, m)` plus
`n - 1`, and `Day(t)` is that same first-of-month day plus
`DateFromTime(t) - 1`; hence the update is exactly
`t + (n - DateFromTime(t)) * msPerDay`. The source only calls it with
`n = getDate t + frequency ≥ getDate t`, so `Nat` subtraction is exact. -/
def setDate (t n : Nat) : Nat :=
  t + n * msPerDay - getDate t * msPerDay

/-! ## Tenant settings and the scheduler's due test -/

/-- The prisma `Settings` row as read by the scheduler. `lastRunAt` is the
stored timestamp in epoch ms. -/
structure DBSettings where
  shop : String
  isActive : Bool
  frequency : Nat
  frequencyUnit : String
  minDaysInactive : Nat
  lastRunAt : Option Nat
  currentStatus : String
deriving DecidableEq, Repr

/-- `shouldRun` (scheduler.server.ts:100-115): inactive tenants are never
due; a tenant that has never run is due; otherwise `nextRun` is `lastRunAt`
advanced by `frequency` minutes (`setMinutes`) or `frequency` calendar days
(`setDate`), and the tenant is due when `now >= nextRun`. -/
def shouldRun (s : DBSettings) (now : Nat) : Bool :=
  if !s.isActive then false
  else
    match s.lastRunAt with
    | none => true
    | some lastRun =>
      let nextRun :=
        if s.frequencyUnit == "minutes" then
          setMinutes lastRun (getMinutes lastRun + s.frequency)
        else
          setDate lastRun (getDate lastRun + s.frequency)
      nextRun ≤ now

/-- The tenants whose settings `runAutoScan` (scheduler.server.ts:51-53)
retrieves: `db.settings.findMany({ where: { isActive: true } })`. -/
def selectedTenants (all : List DBSettings) : List DBSettings :=
  all.filter fun s => s.isActive

/-- The tenants for which one `runAutoScan` tick invokes the
fetch-classify-deactivate pipeline (scheduler.server.ts:59-70): the selected
tenants that `shouldRun` judges due, in enumeration order. -/
def tickInvocations (all : List DBSettings) (now : Nat) : List DBSettings :=
  (selectedTenants all).filter fun s => shouldRun s now

/-! ## The batch mutation executor (scheduler.server.ts:232-305)

The remote GraphQL service and the settings table are external, so the loop
is run against oracles: `flags i` is the value of `isActive` returned by the
fresh `db.settings.findUnique` read before item `i`, and `outc i` is the
outcome of item `i`'s combined deactivation mutation. -/

/-- One activity-log row (`db.activityLog.create`). -/
structure LogEntry where
  shop : String
  productId : String
  productTitle : String
  productSku : String
  method : String
  action : String
deriving DecidableEq, Repr

/-- Outcome of one remote GraphQL mutation call: it returned with no
`userErrors` (and its effects applied), returned with `userErrors`
(effects not applied), or threw. -/
inductive MutationResult where
  | ok
  | userErrors
  | thrown
deriving DecidableEq, Repr

/-- State threaded through one tenant's cycle: the tenant's
`currentStatus` column, the activity log, and the observable remote/audit
effects of the batch — which products were sent a deactivation mutation
(`attempted`), which were fully deactivated (`drafted`), and the
`deactivatedItems` array the batch returns. -/
structure BatchState where
  currentStatus : String
  lastRunAt : Option Nat
  lastScanType : Option String
  lastScanResults : List (Product × Nat)
  log : List LogEntry
  attempted : List String
  drafted : List String
  deactivated : List (Product × Nat)
deriving DecidableEq, Repr

/-- The log row the executor creates for a successfully deactivated product
(scheduler.server.ts:275-284): `method: "AUTO", action: "AUTO-DEACTIVATE"`,
sku from `product.variants?.nodes?.[0]?.sku || ""`. -/
def mkAutoEntry (shop : String) (pd : Product × Nat) : LogEntry :=
  { shop := shop, productId := pd.1.id, productTitle := pd.1.title,
    productSku := skuOf pd.1, method := "AUTO", action := "AUTO-DEACTIVATE" }

/-- One item of the executor loop body (scheduler.server.ts:254-289): the
combined `tagsAdd` + `productUpdate` mutation is issued; only when it
returns without `userErrors` is a log row created and the product pushed
onto `deactivatedItems`. A thrown call is caught and the loop continues. -/
def processItem (shop : String) (res : MutationResult) (pd : Product × Nat)
    (st : BatchState) : BatchState :=
  match res with
  | .ok =>
    { st with attempted := st.attempted ++ [pd.1.id],
              drafted := st.drafted ++ [pd.1.id],
              log := st.log ++ [mkAutoEntry shop pd],
              deactivated := st.deactivated ++ [pd] }
  | .userErrors => { st with attempted := st.attempted ++ [pd.1.id] }
  | .thrown => { st with attempted := st.attempted ++ [pd.1.id] }

/-- The `finally` block (scheduler.server.ts:290-299): after `processed`
items, every 10 items and on the last item the tenant's `currentStatus` is
set to a progress string. -/
def statusUpdate (total processed : Nat) (st : BatchState) : BatchState :=
  if processed % 10 == 0 || processed == total then
    { st with currentStatus :=
        "Deactivating: " ++ toString processed ++ "/" ++ toString total ++ " items..." }
  else st

/-- The `for (const product of candidates)` loop
(scheduler.server.ts:246-300). Before item `i` the tenant's `isActive` flag
is re-read (`flags i`); if it is off the loop breaks. Otherwise the item is
processed and the progress status possibly updated. -/
def deactivateLoop (shop : String) (flags : Nat → Bool) (outc : Nat → MutationResult)
    (total : Nat) : List (Product × Nat) → Nat → BatchState → BatchState
  | [], _, st => st
  | pd :: rest, i, st =>
    if flags i then
      deactivateLoop shop flags outc total rest (i + 1)
        (statusUpdate total (i + 1) (processItem shop (outc i) pd st))
    else st

/-- The deactivation phase of `scanAndDeactivate`
(scheduler.server.ts:236-305): on a non-empty candidate list, write the
initial progress status and run the loop. -/
def deactivateBatch (shop : String) (flags : Nat → Bool) (outc : Nat → MutationResult)
    (cands : List (Product × Nat)) (st : BatchState) : BatchState :=
  if cands.length == 0 then st
  else
    deactivateLoop shop flags outc cands.length cands 0
      { st with currentStatus :=
          "Deactivating: 0/" ++ toString cands.length ++ " items..." }

/-- `scanAndDeactivate` (scheduler.server.ts:134-308): classify the served
pages, then deactivate the candidates. -/
def scanAndDeactivate (shop : String) (flags : Nat → Bool) (outc : Nat → MutationResult)
    (pages : List PageResp) (now cutoff : Nat) (st : BatchState) : BatchState :=
  deactivateBatch shop flags outc (autoScanPages now cutoff pages) st

/-- The per-due-tenant body of `runAutoScan` (scheduler.server.ts:60-89):
set `currentStatus` to the in-progress marker, run the pipeline, then
persist `lastRunAt = now`, `lastScanType = 'AUTO'`, the deactivated subset,
and `currentStatus = "IDLE"`; if the pipeline throws (`throws`), the catch
block still forces `currentStatus` back to `"IDLE"`. -/
def runTenantCycle (shop : String) (flags : Nat → Bool) (outc : Nat → MutationResult)
    (pages : List PageResp) (now cutoff : Nat) (throws : Bool)
    (st : BatchState) : BatchState :=
  let st1 := { st with currentStatus := "Running Scan..." }
  if throws then { st1 with currentStatus := "IDLE" }
  else
    let st2 := scanAndDeactivate shop flags outc pages now cutoff st1
    { st2 with lastRunAt := some now, lastScanType := some "AUTO",
               lastScanResults := st2.deactivated, currentStatus := "IDLE" }

/-- Reference list for the executor theorems: the sublist of `cands` whose
mutation outcome (indexed from `i`) is `ok` — the products the source both
logs and returns. -/
def okFilter (outc : Nat → MutationResult) : Nat → List (Product × Nat) → List (Product × Nat)
  | _, [] => []
  | i, pd :: rest =>
    if outc i == .ok then pd :: okFilter outc (i + 1) rest
    else okFilter outc (i + 1) rest

/-! ## The manual deactivation path (app.manual.tsx:123-149 and
inventory.server.ts:144-174) -/

/-- One element of the `selectedProducts` JSON the manual action receives. -/
structure ManualProduct where
  id : String
  title : String
  sku : String
deriving DecidableEq, Repr

/-- State touched by the manual path: the activity log and the remote
effects (which products got the marker tag, which were set to DRAFT). -/
structure ManualState where
  log : List LogEntry
  tagged : List String
  drafted : List String
deriving DecidableEq, Repr

/-- `deactivateProducts` (inventory.server.ts:144-174): for each id, issue
`tagsAdd` then `productUpdate(status: DRAFT)`. The responses are never read,
so the remote outcome oracles (`tagOk`, `updOk`) only determine the remote
effects, never the control flow. -/
def deactivateProductsRun (tagOk updOk : Nat → Bool) : List String → Nat → ManualState → ManualState
  | [], _, st => st
  | id :: rest, i, st =>
    deactivateProductsRun tagOk updOk rest (i + 1)
      { st with tagged := if tagOk i then st.tagged ++ [id] else st.tagged,
                drafted := if updOk i then st.drafted ++ [id] else st.drafted }

/-- The row the manual action logs for a selected product
(app.manual.tsx:135-144): `method: "MANUAL", action: "DEACTIVATE"`. -/
def mkManualEntry (shop : String) (p : ManualProduct) : LogEntry :=
  { shop := shop, productId := p.id, productTitle := p.title,
    productSku := p.sku, method := "MANUAL", action := "DEACTIVATE" }

/-- The logging loop of the manual action (app.manual.tsx:134-145): one
`DEACTIVATE`/`MANUAL` row per selected product, unconditionally. -/
def manualLogAll (shop : String) : List ManualProduct → ManualState → ManualState
  | [], st => st
  | p :: rest, st =>
    manualLogAll shop rest { st with log := st.log ++ [mkManualEntry shop p] }

/-- The `actionType === "deactivate"` branch (app.manual.tsx:123-149): when
any products are selected, run `deactivateProducts` over their ids and then
log every selected product. -/
def manualDeactivateAction (shop : String) (tagOk updOk : Nat → Bool)
    (products : List ManualProduct) (st : ManualState) : ManualState :=
  if products.length == 0 then st
  else
    manualLogAll shop products
      (deactivateProductsRun tagOk updOk (products.map fun p => p.id) 0 st)

/-! ## The reactivation webhook (webhooks.inventory.update.tsx:21-89) -/

/-- The product record the webhook's lookup query returns (id, title,
status, tags of the owning product). -/
structure RemoteProduct where
  id : String
  title : String
  status : String
  tags : List String
deriving DecidableEq, Repr

/-- Remote catalog plus audit log as seen by the webhook: `variantOf` maps
an inventory item id to the owning variant's `(sku, product id)` (static
catalog structure), `products` holds each product's current remote state,
and `log` is the activity log. -/
structure ReactState where
  products : String → Option RemoteProduct
  log : List LogEntry

/-- The `inventoryItem { variant { sku product { ... } } }` lookup. -/
def lookupByItem (variantOf : Nat → Option (String × String)) (st : ReactState)
    (itemId : Nat) : Option (String × RemoteProduct) :=
  match variantOf itemId with
  | none => none
  | some (sku, pid) => (st.products pid).map fun p => (sku, p)

/-- The row the webhook logs on reactivation
(webhooks.inventory.update.tsx:72-81). -/
def mkWebhookEntry (shop sku : String) (p : RemoteProduct) : LogEntry :=
  { shop := shop, productId := p.id, productTitle := p.title,
    productSku := sku, method := "WEBHOOK", action := "REACTIVATE" }

/-- The webhook action (webhooks.inventory.update.tsx:21-89). If
`available && available > 0`, resolve the owning product; if it carries the
`auto-archived-oos` marker, issue the combined `productUpdate(ACTIVE)` +
`tagsRemove` mutation and then create the `REACTIVATE`/`WEBHOOK` log row.
The mutation response's `userErrors` are printed but never checked, so the
row is created whenever the call returns; only a thrown call (which aborts
the handler) prevents it. -/
def webhookAction (shop : String) (variantOf : Nat → Option (String × String))
    (itemId : Nat) (available : Option Int) (mres : MutationResult)
    (st : ReactState) : ReactState :=
  if 0 < available.getD 0 then
    match lookupByItem variantOf st itemId with
    | none => st
    | some (sku, p) =>
      if p.tags.contains "auto-archived-oos" then
        match mres with
        | .thrown => st
        | .ok =>
          let p2 := { p with
            status := "ACTIVE",
            tags := p.tags.filter fun t => t != "auto-archived-oos" }
          { st with
            products := fun pid => if pid == p.id then some p2 else st.products pid,
            log := st.log ++ [mkWebhookEntry shop sku p] }
        | .userErrors =>
          { st with log := st.log ++ [mkWebhookEntry shop sku p] }
      else st
  else st

/-! ## Statement vocabulary -/

/-- The last-update timestamps of the variants that have an inventory-level
node, in variant order. -/
def updatesOf (vs : List Variant) : List Nat :=
  vs.filterMap fun v => (levelOf v).map fun lvl => lvl.updatedAt

/-- The maximum last-inventory-update timestamp over a product's variants
(`0` when no variant has a level node). -/
def maxUpdateOf (vs : List Variant) : Nat :=
  (updatesOf vs).foldl max 0

/-- Modelled from the spec: the gift-card exclusion rule exactly as claim C8
words it — a case-insensitive substring match on "gift card", or a
case-insensitive exact match on the normalized short code "giftcard". Used
only to compare the claimed rule with the two rules found in the source. -/
def claimedGiftCardRule (category : String) : Bool :=
  strIncludes (strToLower category) "gift card" || strToLower category == "giftcard"

/-! ## Concrete fixtures used by counterexamples and witnesses -/

/-- A tracked variant at zero available whose level was last updated at
epoch day 1 (timestamp `86400000` ms). -/
def oldZeroVariant : Variant :=
  { sku := some "SKU1",
    inventoryItem := some
      { tracked := some true,
        level := some { updatedAt := 86400000,
                        quantities := [{ name := "available", quantity := 0 }] } } }

/-- The level node of `oldZeroVariant`. -/
def oldZeroLevel : InventoryLevel :=
  { updatedAt := 86400000, quantities := [{ name := "available", quantity := 0 }] }

/-- A product of category "Gift Card" that otherwise fully qualifies. -/
def cexGiftProduct : Product :=
  { id := "gid://shopify/Product/1", title := "Gift Card 50", handle := "gc",
    featuredImage := none, productType := "Gift Card", variants := [oldZeroVariant] }

/-- A product of category "Giftcard" (mixed case) that otherwise fully
qualifies. -/
def cexCaseProduct : Product :=
  { id := "gid://shopify/Product/2", title := "Giftcard 25", handle := "gc2",
    featuredImage := none, productType := "Giftcard", variants := [oldZeroVariant] }

/-- An ordinary stale product that fully qualifies. -/
def okProduct : Product :=
  { id := "gid://shopify/Product/3", title := "Widget", handle := "w",
    featuredImage := none, productType := "Widget", variants := [oldZeroVariant] }

/-- A product with an explicitly untracked variant. -/
def untrackedProduct : Product :=
  { id := "gid://shopify/Product/4", title := "Untracked", handle := "u",
    featuredImage := none, productType := "Widget",
    variants := [{ sku := some "S",
                   inventoryItem := some { tracked := some false,
                                           level := some oldZeroLevel } }] }

/-- A product none of whose variants has an inventory-level node. -/
def noLevelProduct : Product :=
  { id := "gid://shopify/Product/5", title := "Fresh", handle := "f",
    featuredImage := none, productType := "Widget",
    variants := [{ sku := some "S",
                   inventoryItem := some { tracked := some true, level := none } }] }


/-- The empty tenant/batch state used by concrete runs. -/
def emptyBatchState : BatchState :=
  { currentStatus := "IDLE", lastRunAt := none, lastScanType := none,
    lastScanResults := [], log := [], attempted := [], drafted := [],
    deactivated := [] }

/-- A concrete batch of three candidates. -/
def cands3 : List (Product × Nat) :=
  [(okProduct, 99),
   ({ okProduct with id := "gid://shopify/Product/6" }, 99),
   ({ okProduct with id := "gid://shopify/Product/7" }, 99)]

/-- A concrete outcome oracle: item 1 fails with userErrors, the others
succeed. -/
def outcMixed : Nat → MutationResult :=
  fun i => if i == 1 then MutationResult.userErrors else MutationResult.ok

/-- An `isActive` oracle that reads true before item 0 and false before
item 1 (automation turned off mid-batch). -/
def flagsFlipAt1 : Nat → Bool :=
  fun i => i == 0

/-- The empty state of the manual path. -/
def emptyManualState : ManualState :=
  { log := [], tagged := [], drafted := [] }

/-- A concrete selected product for the manual path. -/
def manualP : ManualProduct :=
  { id := "gid://shopify/Product/9", title := "Old Tee", sku := "TEE-9" }

/-- A deactivated remote product still carrying the marker tag. -/
def markedRemote : RemoteProduct :=
  { id := "gid://shopify/Product/11", title := "Boots", status := "DRAFT",
    tags := ["sale", "auto-archived-oos"] }

/-- A concrete catalog mapping inventory item 7 to `markedRemote`. -/
def variantOf7 : Nat → Option (String × String) :=
  fun i => if i == 7 then some ("BOOT-1", "gid://shopify/Product/11") else none

/-- Webhook state holding `markedRemote` and an empty log. -/
def reactState0 : ReactState :=
  { products := fun pid =>
      if pid == "gid://shopify/Product/11" then some markedRemote else none,
    log := [] }

/-- A page of one product whose `pageInfo` reports more pages. -/
def onePage : PageResp := { nodes := [okProduct], hasNextPage := true }

/-- A generic candidate used as padding. -/
def dummyCandidate : ProductCandidate :=
  { id := "x", title := "x", handle := "x", featuredImage := none,
    sku := "", daysInactive := 0 }

/-- 501 previously accumulated candidates. -/
def acc501 : List ProductCandidate := List.replicate 501 dummyCandidate

/-- Epoch ms of 2026-01-31T00:00Z (epoch day 20484). -/
def jan31 : Nat := 20484 * msPerDay

/-- A tenant on a 30-minute cadence, last run at `jan31` plus 37 minutes. -/
def minuteTenant : DBSettings :=
  { shop := "a.example", isActive := true, frequency := 30,
    frequencyUnit := "minutes", minDaysInactive := 90,
    lastRunAt := some (jan31 + 37 * msPerMinute), currentStatus := "IDLE" }

/-- A tenant on a 1-day cadence, last run at `jan31`. -/
def dayTenant : DBSettings :=
  { shop := "b.example", isActive := true, frequency := 1,
    frequencyUnit := "days", minDaysInactive := 90,
    lastRunAt := some jan31, currentStatus := "IDLE" }

/-- A tenant with automation disabled. -/
def disabledTenant : DBSettings :=
  { shop := "c.example", isActive := false, frequency := 1,
    frequencyUnit := "minutes", minDaysInactive := 90,
    lastRunAt := none, currentStatus := "IDLE" }

/-- An enabled tenant that has never run. -/
def freshTenant : DBSettings :=
  { shop := "d.example", isActive := true, frequency := 5,
    frequencyUnit := "minutes", minDaysInactive := 90,
    lastRunAt := none, currentStatus := "IDLE" }

/-! ## Helper lemmas on the variant scan -/

theorem scanVariants_all_zero (avail : InventoryLevel → Int) (vs : List Variant)
    (ht : ∀ v ∈ vs, trackedOf v ≠ some false)
    (hz : ∀ v ∈ vs, ∀ lvl, levelOf v = some lvl → ¬ 0 < avail lvl) :
    ∀ acc, scanVariants avail vs acc = some (List.foldl max acc (updatesOf vs)) := by
  induction vs with
  | nil => intro acc; rfl
  | cons v vs ih =>
    intro acc
    have htv : trackedOf v ≠ some false := ht v (by simp)
    have hbeq : (trackedOf v == some false) = false := by
      cases h : trackedOf v == some false
      · rfl
      · exact absurd (eq_of_beq h) htv
    unfold scanVariants
    rw [hbeq]
    simp only [Bool.false_eq_true, if_false]
    cases hlv : levelOf v with
    | none =>
      have : updatesOf (v :: vs) = updatesOf vs := by
        simp [updatesOf, hlv]
      rw [this]
      exact ih (fun w hw => ht w (by simp [hw])) (fun w hw => hz w (by simp [hw])) acc
    | some lvl =>
      have hza : ¬ 0 < avail lvl := hz v (by simp) lvl hlv
      simp only [hza, if_false]
      have : updatesOf (v :: vs) = lvl.updatedAt :: updatesOf vs := by
        simp [updatesOf, hlv]
      rw [this]
      exact ih (fun w hw => ht w (by simp [hw])) (fun w hw => hz w (by simp [hw]))
        (max acc lvl.updatedAt)

theorem scanVariants_disqualified (avail : InventoryLevel → Int) (vs : List Variant)
    (h : ∃ v ∈ vs, trackedOf v = some false ∨
      ∃ lvl, levelOf v = some lvl ∧ 0 < avail lvl) :
    ∀ acc, scanVariants avail vs acc = none := by
  induction vs with
  | nil => simp at h
  | cons v vs ih =>
    intro acc
    unfold scanVariants
    cases hbeq : trackedOf v == some false with
    | true => simp
    | false =>
      simp only [Bool.false_eq_true, if_false]
      have htv : trackedOf v ≠ some false := by
        intro he; rw [he] at hbeq; simp at hbeq
      rcases h with ⟨w, hw, hdisq⟩
      rcases List.mem_cons.mp hw with rfl | hwtail
      · rcases hdisq with htr | ⟨lvl, hlv, hpos⟩
        · exact absurd htr htv
        · rw [hlv]; simp [hpos]
      · cases hlv : levelOf v with
        | none => exact ih ⟨w, hwtail, hdisq⟩ acc
        | some lvl =>
          by_cases hpos : 0 < avail lvl
          · simp [hpos]
          · simp only [hpos, if_false]
            exact ih ⟨w, hwtail, hdisq⟩ (max acc lvl.updatedAt)

theorem scanVariants_no_levels (avail : InventoryLevel → Int) (vs : List Variant)
    (h : ∀ v ∈ vs, levelOf v = none) :
    ∀ acc, scanVariants avail vs acc = none ∨ scanVariants avail vs acc = some acc := by
  induction vs with
  | nil => intro acc; right; rfl
  | cons v vs ih =>
    intro acc
    unfold scanVariants
    cases hbeq : trackedOf v == some false with
    | true => left; simp
    | false =>
      simp only [Bool.false_eq_true, if_false]
      rw [h v (by simp)]
      exact ih (fun w hw => h w (by simp [hw])) acc

theorem classifyManual_none_of_scan (p : Product) (now cutoff : Nat)
    (h : scanVariants availableManual p.variants 0 = none ∨
      scanVariants availableManual p.variants 0 = some 0) :
    classifyManual now cutoff p = none := by
  unfold classifyManual
  split
  · rfl
  · rcases h with h | h <;> simp [h]

theorem classifyAuto_none_of_scan (p : Product) (now cutoff : Nat)
    (h : scanVariants availableAuto p.variants 0 = none ∨
      scanVariants availableAuto p.variants 0 = some 0) :
    classifyAuto now cutoff p = none := by
  unfold classifyAuto
  split
  · rfl
  · rcases h with h | h <;> simp [h]

theorem classifyManual_none_of_gift (p : Product) (now cutoff : Nat)
    (h : isGiftCardManual p.productType = true) :
    classifyManual now cutoff p = none := by
  unfold classifyManual
  rw [h]
  simp

theorem classifyAuto_none_of_gift (p : Product) (now cutoff : Nat)
    (h : isGiftCardAuto p.productType = true) :
    classifyAuto now cutoff p = none := by
  unfold classifyAuto
  rw [h]
  simp

theorem isGiftCardManual_of_substr (pt : String)
    (h : strIncludes (strToLower pt) "gift card" = true) : isGiftCardManual pt = true := by
  unfold isGiftCardManual
  cases hb : pt == "" with
  | false => simp [h]
  | true =>
    have he : pt = "" := eq_of_beq hb
    subst he
    exact absurd h (by decide)

theorem isGiftCardAuto_of_substr (pt : String)
    (h : strIncludes (strToLower pt) "gift card" = true) : isGiftCardAuto pt = true := by
  unfold isGiftCardAuto
  cases hb : pt == "" with
  | false => simp [h]
  | true =>
    have he : pt = "" := eq_of_beq hb
    subst he
    exact absurd h (by decide)

theorem isGiftCardManual_of_code (pt : String)
    (h : strToLower pt = "giftcard") : isGiftCardManual pt = true := by
  unfold isGiftCardManual
  cases hb : pt == "" with
  | false => simp [h]
  | true =>
    have he : pt = "" := eq_of_beq hb
    subst he
    exact absurd h (by decide)

theorem isGiftCardAuto_of_code (pt : String)
    (h : pt = "giftcard") : isGiftCardAuto pt = true := by
  subst h
  decide

/-! ## Helper lemmas on the batch executor -/

theorem statusUpdate_log (total processed : Nat) (st : BatchState) :
    (statusUpdate total processed st).log = st.log := by
  unfold statusUpdate
  split <;> rfl

theorem statusUpdate_attempted (total processed : Nat) (st : BatchState) :
    (statusUpdate total processed st).attempted = st.attempted := by
  unfold statusUpdate
  split <;> rfl

theorem statusUpdate_drafted (total processed : Nat) (st : BatchState) :
    (statusUpdate total processed st).drafted = st.drafted := by
  unfold statusUpdate
  split <;> rfl

theorem statusUpdate_deactivated (total processed : Nat) (st : BatchState) :
    (statusUpdate total processed st).deactivated = st.deactivated := by
  unfold statusUpdate
  split <;> rfl

theorem deactivateLoop_flip (shop : String) (flags : Nat → Bool)
    (outc : Nat → MutationResult) (total : Nat) :
    ∀ (cands : List (Product × Nat)) (k i : Nat) (st : BatchState),
    (∀ j, j < k → flags (i + j) = true) →
    (k < cands.length → flags (i + k) = false) →
    (deactivateLoop shop flags outc total cands i st).log
        = st.log ++ (okFilter outc i (cands.take k)).map (mkAutoEntry shop) ∧
    (deactivateLoop shop flags outc total cands i st).attempted
        = st.attempted ++ ((cands.take k).map fun pd => pd.1.id) ∧
    (deactivateLoop shop flags outc total cands i st).drafted
        = st.drafted ++ ((okFilter outc i (cands.take k)).map fun pd => pd.1.id) ∧
    (deactivateLoop shop flags outc total cands i st).deactivated
        = st.deactivated ++ okFilter outc i (cands.take k) := by
  intro cands
  induction cands with
  | nil =>
    intro k i st _ _
    simp [deactivateLoop, okFilter]
  | cons pd rest ih =>
    intro k i st htrue hfalse
    cases k with
    | zero =>
      have hf : flags i = false := by simpa using hfalse (Nat.succ_pos _)
      simp [deactivateLoop, hf, okFilter]
    | succ k' =>
      have hfi : flags i = true := by simpa using htrue 0 (Nat.succ_pos k')
      have ih' := ih k' (i + 1)
        (statusUpdate total (i + 1) (processItem shop (outc i) pd st))
        (fun j hj => by
          have h2 := htrue (j + 1) (by omega)
          rwa [show i + (j + 1) = i + 1 + j by omega] at h2)
        (fun hlt => by
          have h2 := hfalse (by simpa using Nat.succ_lt_succ hlt)
          rwa [show i + (k' + 1) = i + 1 + k' by omega] at h2)
      obtain ⟨hl, ha, hd, hde⟩ := ih'
      unfold deactivateLoop
      rw [hfi]
      simp only [if_true]
      refine ⟨?_, ?_, ?_, ?_⟩
      · rw [hl, statusUpdate_log]
        cases ho : outc i <;>
          simp [processItem, okFilter, ho, List.append_assoc]
      · rw [ha, statusUpdate_attempted]
        cases ho : outc i <;>
          simp [processItem, okFilter, ho, List.append_assoc]
      · rw [hd, statusUpdate_drafted]
        cases ho : outc i <;>
          simp [processItem, okFilter, ho, List.append_assoc]
      · rw [hde, statusUpdate_deactivated]
        cases ho : outc i <;>
          simp [processItem, okFilter, ho, List.append_assoc]

theorem deactivateBatch_flip (shop : String) (flags : Nat → Bool)
    (outc : Nat → MutationResult) (cands : List (Product × Nat)) (k : Nat)
    (st : BatchState)
    (htrue : ∀ j, j < k → flags j = true)
    (hfalse : k < cands.length → flags k = false) :
    (deactivateBatch shop flags outc cands st).log
        = st.log ++ (okFilter outc 0 (cands.take k)).map (mkAutoEntry shop) ∧
    (deactivateBatch shop flags outc cands st).attempted
        = st.attempted ++ ((cands.take k).map fun pd => pd.1.id) ∧
    (deactivateBatch shop flags outc cands st).drafted
        = st.drafted ++ ((okFilter outc 0 (cands.take k)).map fun pd => pd.1.id) ∧
    (deactivateBatch shop flags outc cands st).deactivated
        = st.deactivated ++ okFilter outc 0 (cands.take k) := by
  unfold deactivateBatch
  cases hc : cands.length == 0 with
  | true =>
    have hnil : cands = [] := List.length_eq_zero.mp (beq_iff_eq.mp hc)
    subst hnil
    simp [okFilter]
  | false =>
    simp only [hc, Bool.false_eq_true, if_false]
    have h := deactivateLoop_flip shop flags outc cands.length cands k 0
      { st with currentStatus :=
          "Deactivating: 0/" ++ toString cands.length ++ " items..." }
      (fun j hj => by simpa using htrue j hj)
      (fun hlt => by simpa using hfalse hlt)
    exact h

/-- C1 (amended): for every product in a classifier input page whose
category does not match either gift-card exclusion test, whose variants are
all tracked and all show available = 0, and whose maximum
last-inventory-update timestamp lies more than `days * 86400` seconds
before `now`, both classifiers make the product a candidate and record
`inactivityDays = floor(elapsedSeconds / 86400)`, elapsed being measured
from that maximum timestamp. -/
theorem claim1_candidate_amended (p : Product) (now days : Nat)
    (hg1 : isGiftCardManual p.productType = false)
    (hg2 : isGiftCardAuto p.productType = false)
    (ht : ∀ v ∈ p.variants, trackedOf v = some true)
    (hz : ∀ v ∈ p.variants, ∃ lvl, levelOf v = some lvl ∧
      availableManual lvl = 0 ∧ availableAuto lvl = 0)
    (hm : 0 < maxUpdateOf p.variants)
    (hpast : maxUpdateOf p.variants + cutoffMsOf days < now) :
    classifyManual now (cutoffMsOf days) p =
      some { id := p.id, title := p.title, handle := p.handle,
             featuredImage := p.featuredImage, sku := skuOf p,
             daysInactive := (now - maxUpdateOf p.variants) / 86400000 } ∧
    classifyAuto now (cutoffMsOf days) p =
      some (p, (now - maxUpdateOf p.variants) / 86400000) ∧
    (now - maxUpdateOf p.variants) / 86400000
      = ((now - maxUpdateOf p.variants) / 1000) / 86400 := by
  have hne : ∀ v ∈ p.variants, trackedOf v ≠ some false := by
    intro v hv
    rw [ht v hv]
    simp
  have hzM : ∀ v ∈ p.variants, ∀ lvl, levelOf v = some lvl →
      ¬ 0 < availableManual lvl := by
    intro v hv lvl hlv
    obtain ⟨lvl', hlv', h1, h2⟩ := hz v hv
    rw [hlv] at hlv'
    injection hlv' with he
    subst he
    rw [h1]
    decide
  have hzA : ∀ v ∈ p.variants, ∀ lvl, levelOf v = some lvl →
      ¬ 0 < availableAuto lvl := by
    intro v hv lvl hlv
    obtain ⟨lvl', hlv', h1, h2⟩ := hz v hv
    rw [hlv] at hlv'
    injection hlv' with he
    subst he
    rw [h2]
    decide
  have hscanM := scanVariants_all_zero availableManual p.variants hne hzM 0
  have hscanA := scanVariants_all_zero availableAuto p.variants hne hzA 0
  have hfold : List.foldl max 0 (updatesOf p.variants) = maxUpdateOf p.variants := rfl
  rw [hfold] at hscanM hscanA
  have hcut : cutoffMsOf days < now - maxUpdateOf p.variants := by omega
  refine ⟨?_, ?_, ?_⟩
  · unfold classifyManual
    rw [hg1, hscanM]
    simp [hm, hcut]
  · unfold classifyAuto
    rw [hg2, hscanA]
    simp [hm, hcut]
  · omega

/-- C1 counterexample: `cexGiftProduct` satisfies every hypothesis of claim
C1 as stated (all variants tracked, all show available = 0, maximum
last-update timestamp `86400000` more than 90 days before `now =
100 * 86400000`), yet neither classifier makes it a candidate, because its
category "Gift Card" is excluded — an exclusion the claim does not state. -/
theorem claim1_counterexample :
    trackedOf oldZeroVariant = some true ∧
    levelOf oldZeroVariant = some oldZeroLevel ∧
    availableManual oldZeroLevel = 0 ∧
    availableAuto oldZeroLevel = 0 ∧
    cexGiftProduct.variants = [oldZeroVariant] ∧
    maxUpdateOf cexGiftProduct.variants = 86400000 ∧
    maxUpdateOf cexGiftProduct.variants + cutoffMsOf 90 < 100 * 86400000 ∧
    classifyManual (100 * 86400000) (cutoffMsOf 90) cexGiftProduct = none ∧
    classifyAuto (100 * 86400000) (cutoffMsOf 90) cexGiftProduct = none := by
  decide

/-- C1 witness: the amended claim applied to the concrete qualifying
product `okProduct` at `now = 100 * 86400000`, threshold 90 days. -/
theorem claim1_witness :
    classifyManual (100 * 86400000) (cutoffMsOf 90) okProduct =
      some { id := okProduct.id, title := okProduct.title,
             handle := okProduct.handle, featuredImage := okProduct.featuredImage,
             sku := skuOf okProduct,
             daysInactive := (100 * 86400000 - maxUpdateOf okProduct.variants) / 86400000 } ∧
    classifyAuto (100 * 86400000) (cutoffMsOf 90) okProduct =
      some (okProduct, (100 * 86400000 - maxUpdateOf okProduct.variants) / 86400000) ∧
    (100 * 86400000 - maxUpdateOf okProduct.variants) / 86400000
      = ((100 * 86400000 - maxUpdateOf okProduct.variants) / 1000) / 86400 :=
  claim1_candidate_amended okProduct (100 * 86400000) 90
    (by decide) (by decide) (by decide)
    (by
      intro v hv
      simp [okProduct] at hv
      subst hv
      exact ⟨oldZeroLevel, rfl, rfl, rfl⟩)
    (by decide) (by decide)

/-- C7: a product with an explicitly untracked variant, or a variant
showing available > 0 (under the respective classifier's extraction), or no
resolvable inventory-level timestamp at all, is never a candidate,
regardless of how old any timestamps are. -/
theorem claim7_never_candidate (p : Product) (now cutoff : Nat) :
    ((∃ v ∈ p.variants, trackedOf v = some false) →
      classifyManual now cutoff p = none ∧ classifyAuto now cutoff p = none) ∧
    ((∃ v ∈ p.variants, ∃ lvl, levelOf v = some lvl ∧ 0 < availableManual lvl) →
      classifyManual now cutoff p = none) ∧
    ((∃ v ∈ p.variants, ∃ lvl, levelOf v = some lvl ∧ 0 < availableAuto lvl) →
      classifyAuto now cutoff p = none) ∧
    ((∀ v ∈ p.variants, levelOf v = none) →
      classifyManual now cutoff p = none ∧ classifyAuto now cutoff p = none) := by
  refine ⟨fun h => ⟨?_, ?_⟩, fun h => ?_, fun h => ?_, fun h => ⟨?_, ?_⟩⟩
  · exact classifyManual_none_of_scan _ _ _
      (Or.inl (scanVariants_disqualified _ _
        (h.imp fun v hv => ⟨hv.1, Or.inl hv.2⟩) 0))
  · exact classifyAuto_none_of_scan _ _ _
      (Or.inl (scanVariants_disqualified _ _
        (h.imp fun v hv => ⟨hv.1, Or.inl hv.2⟩) 0))
  · exact classifyManual_none_of_scan _ _ _
      (Or.inl (scanVariants_disqualified _ _
        (h.imp fun v hv => ⟨hv.1, Or.inr hv.2⟩) 0))
  · exact classifyAuto_none_of_scan _ _ _
      (Or.inl (scanVariants_disqualified _ _
        (h.imp fun v hv => ⟨hv.1, Or.inr hv.2⟩) 0))
  · exact classifyManual_none_of_scan _ _ _ (scanVariants_no_levels _ _ h 0)
  · exact classifyAuto_none_of_scan _ _ _ (scanVariants_no_levels _ _ h 0)

/-- C7 witness: the theorem applied to a concrete untracked product and to a
concrete product with no inventory-level node, at arbitrary ages. -/
theorem claim7_witness :
    (classifyManual (1000 * 86400000) 0 untrackedProduct = none ∧
      classifyAuto (1000 * 86400000) 0 untrackedProduct = none) ∧
    (classifyManual (1000 * 86400000) 0 noLevelProduct = none ∧
      classifyAuto (1000 * 86400000) 0 noLevelProduct = none) :=
  ⟨(claim7_never_candidate untrackedProduct (1000 * 86400000) 0).1
      ⟨untrackedProduct.variants.head (by decide), by decide, by decide⟩,
    (claim7_never_candidate noLevelProduct (1000 * 86400000) 0).2.2.2
      (by decide)⟩

/-- C8 (amended): a category containing "gift card" case-insensitively is
excluded by both classifiers; the exact short-code match is case-insensitive
in the manual classifier (lowercased category equal to "giftcard") but
case-sensitive in the scheduled classifier (category exactly "giftcard"). -/
theorem claim8_exclusion_amended (p : Product) (now cutoff : Nat) :
    (strIncludes (strToLower p.productType) "gift card" = true →
      classifyManual now cutoff p = none ∧ classifyAuto now cutoff p = none) ∧
    (strToLower p.productType = "giftcard" → classifyManual now cutoff p = none) ∧
    (p.productType = "giftcard" → classifyAuto now cutoff p = none) := by
  refine ⟨fun h => ⟨?_, ?_⟩, fun h => ?_, fun h => ?_⟩
  · exact classifyManual_none_of_gift _ _ _ (isGiftCardManual_of_substr _ h)
  · exact classifyAuto_none_of_gift _ _ _ (isGiftCardAuto_of_substr _ h)
  · exact classifyManual_none_of_gift _ _ _ (isGiftCardManual_of_code _ h)
  · exact classifyAuto_none_of_gift _ _ _ (isGiftCardAuto_of_code _ h)

/-- C8 counterexample: the category "Giftcard" matches the claimed
case-insensitive exact rule, and the product otherwise fully qualifies, yet
the scheduled classifier still makes it a candidate — its exact-match test
`productType === "giftcard"` is case-sensitive. -/
theorem claim8_counterexample :
    claimedGiftCardRule "Giftcard" = true ∧
    cexCaseProduct.productType = "Giftcard" ∧
    classifyAuto (100 * 86400000) (cutoffMsOf 90) cexCaseProduct
      = some (cexCaseProduct, 99) := by
  decide

/-- C8 witness: the amended exclusions applied to concrete categories
"Gift Cards" (substring, both classifiers), "GIFTCARD" (lowercased exact,
manual classifier) and "giftcard" (exact, scheduled classifier). -/
theorem claim8_witness :
    (classifyManual 0 0 cexGiftProduct = none ∧
      classifyAuto 0 0 cexGiftProduct = none) ∧
    classifyManual 0 0 { cexCaseProduct with productType := "GIFTCARD" } = none ∧
    classifyAuto 0 0 { cexCaseProduct with productType := "giftcard" } = none :=
  ⟨(claim8_exclusion_amended cexGiftProduct 0 0).1 (by decide),
    (claim8_exclusion_amended { cexCaseProduct with productType := "GIFTCARD" } 0 0).2.1
      (by decide),
    (claim8_exclusion_amended { cexCaseProduct with productType := "giftcard" } 0 0).2.2
      (by decide)⟩


/-! ## Helper lemmas for the manual and webhook paths -/

theorem deactivateProductsRun_log (tagOk updOk : Nat → Bool) :
    ∀ (ids : List String) (i : Nat) (st : ManualState),
    (deactivateProductsRun tagOk updOk ids i st).log = st.log := by
  intro ids
  induction ids with
  | nil => intro i st; rfl
  | cons id rest ih => intro i st; simp [deactivateProductsRun, ih]

theorem manualLogAll_log (shop : String) :
    ∀ (products : List ManualProduct) (st : ManualState),
    (manualLogAll shop products st).log = st.log ++ products.map (mkManualEntry shop) := by
  intro products
  induction products with
  | nil => intro st; simp [manualLogAll]
  | cons p rest ih => intro st; simp [manualLogAll, ih]

theorem not_mem_filter_ne (l : List String) (m : String) :
    m ∉ l.filter fun t => t != m := by
  intro hm
  have h2 := (List.mem_filter.mp hm).2
  simp at h2

/-- C2 (corrected to the logged action the code really writes): for every
batch of candidates with automation left on, the executor returns exactly
the candidates whose combined status-change mutation succeeded, writes
exactly one ActivityLogEntry per successful product — with
`action = "AUTO-DEACTIVATE"` and `method = "AUTO"` — and none for a failed
product, attempts every item regardless of earlier failures (a single
item's failure never aborts the batch), and the tenant's `currentStatus`
ends the cycle at "IDLE". -/
theorem claim2_batch_amended (shop : String) (flags : Nat → Bool)
    (outc : Nat → MutationResult) (cands : List (Product × Nat)) (st : BatchState)
    (hflags : ∀ i, flags i = true) :
    (deactivateBatch shop flags outc cands st).deactivated
        = st.deactivated ++ okFilter outc 0 cands ∧
    (deactivateBatch shop flags outc cands st).log
        = st.log ++ (okFilter outc 0 cands).map (mkAutoEntry shop) ∧
    (∀ e ∈ (okFilter outc 0 cands).map (mkAutoEntry shop),
      e.action = "AUTO-DEACTIVATE" ∧ e.method = "AUTO") ∧
    (deactivateBatch shop flags outc cands st).attempted
        = st.attempted ++ (cands.map fun pd => pd.1.id) ∧
    (∀ (pages : List PageResp) (now cutoff : Nat) (throws : Bool) (st2 : BatchState),
      (runTenantCycle shop flags outc pages now cutoff throws st2).currentStatus
        = "IDLE") := by
  have h := deactivateBatch_flip shop flags outc cands cands.length st
    (fun j _ => hflags j) (fun hlt => absurd hlt (lt_irrefl _))
  rw [List.take_length] at h
  obtain ⟨hl, ha, hd, hde⟩ := h
  refine ⟨hde, hl, ?_, ha, ?_⟩
  · intro e he
    rw [List.mem_map] at he
    obtain ⟨pd, _, rfl⟩ := he
    exact ⟨rfl, rfl⟩
  · intro pages now cutoff throws st2
    unfold runTenantCycle
    split
    · rfl
    · rfl

/-- C2 counterexample: a batch of one candidate whose mutation succeeds
produces exactly one log row, and that row's `action` is
"AUTO-DEACTIVATE", not the "DEACTIVATE" the claim states. -/
theorem claim2_counterexample :
    (deactivateBatch "shop.example" (fun _ => true) (fun _ => MutationResult.ok)
        [(okProduct, 99)] emptyBatchState).deactivated = [(okProduct, 99)] ∧
    (deactivateBatch "shop.example" (fun _ => true) (fun _ => MutationResult.ok)
        [(okProduct, 99)] emptyBatchState).log.length = 1 ∧
    (∀ e ∈ (deactivateBatch "shop.example" (fun _ => true) (fun _ => MutationResult.ok)
        [(okProduct, 99)] emptyBatchState).log,
      e.action = "AUTO-DEACTIVATE" ∧ e.action ≠ "DEACTIVATE") := by
  decide

/-- C2 witness: the amended claim applied to a concrete batch of three
candidates of which the middle one fails with userErrors. -/
theorem claim2_witness :
    (deactivateBatch "shop.example" (fun _ => true) outcMixed cands3
        emptyBatchState).deactivated
      = emptyBatchState.deactivated ++ okFilter outcMixed 0 cands3 ∧
    (deactivateBatch "shop.example" (fun _ => true) outcMixed cands3
        emptyBatchState).log
      = emptyBatchState.log
          ++ (okFilter outcMixed 0 cands3).map (mkAutoEntry "shop.example") ∧
    (∀ e ∈ (okFilter outcMixed 0 cands3).map (mkAutoEntry "shop.example"),
      e.action = "AUTO-DEACTIVATE" ∧ e.method = "AUTO") ∧
    (deactivateBatch "shop.example" (fun _ => true) outcMixed cands3
        emptyBatchState).attempted
      = emptyBatchState.attempted ++ (cands3.map fun pd => pd.1.id) ∧
    (∀ (pages : List PageResp) (now cutoff : Nat) (throws : Bool) (st2 : BatchState),
      (runTenantCycle "shop.example" (fun _ => true) outcMixed pages now cutoff
          throws st2).currentStatus = "IDLE") :=
  claim2_batch_amended "shop.example" (fun _ => true) outcMixed cands3
    emptyBatchState (fun _ => rfl)

/-- C4: the executor re-reads the tenant's automation flag before each item
(`flags i` before item `i`); once it reads false at item `k`, no further
item is sent a mutation or logged, while every success among the first `k`
items keeps its DRAFT status, its log row, and its place in the returned
subset — no rollback. -/
theorem claim4_cooperative_stop (shop : String) (flags : Nat → Bool)
    (outc : Nat → MutationResult) (cands : List (Product × Nat)) (st : BatchState)
    (k : Nat) (htrue : ∀ j, j < k → flags j = true) (hstop : flags k = false) :
    (deactivateBatch shop flags outc cands st).attempted
        = st.attempted ++ ((cands.take k).map fun pd => pd.1.id) ∧
    (deactivateBatch shop flags outc cands st).log
        = st.log ++ (okFilter outc 0 (cands.take k)).map (mkAutoEntry shop) ∧
    (deactivateBatch shop flags outc cands st).drafted
        = st.drafted ++ ((okFilter outc 0 (cands.take k)).map fun pd => pd.1.id) ∧
    (deactivateBatch shop flags outc cands st).deactivated
        = st.deactivated ++ okFilter outc 0 (cands.take k) := by
  have h := deactivateBatch_flip shop flags outc cands k st htrue (fun _ => hstop)
  exact ⟨h.2.1, h.1, h.2.2.1, h.2.2.2⟩

/-- C4 witness: the theorem applied to a batch of three candidates whose
automation flag flips to false before item 1: only item 0 is attempted,
deactivated and logged. -/
theorem claim4_witness :
    (deactivateBatch "shop.example" flagsFlipAt1 outcMixed cands3
        emptyBatchState).attempted
      = emptyBatchState.attempted ++ ((cands3.take 1).map fun pd => pd.1.id) ∧
    (deactivateBatch "shop.example" flagsFlipAt1 outcMixed cands3
        emptyBatchState).log
      = emptyBatchState.log
          ++ (okFilter outcMixed 0 (cands3.take 1)).map (mkAutoEntry "shop.example") ∧
    (deactivateBatch "shop.example" flagsFlipAt1 outcMixed cands3
        emptyBatchState).drafted
      = emptyBatchState.drafted
          ++ ((okFilter outcMixed 0 (cands3.take 1)).map fun pd => pd.1.id) ∧
    (deactivateBatch "shop.example" flagsFlipAt1 outcMixed cands3
        emptyBatchState).deactivated
      = emptyBatchState.deactivated ++ okFilter outcMixed 0 (cands3.take 1) :=
  claim4_cooperative_stop "shop.example" flagsFlipAt1 outcMixed cands3
    emptyBatchState 1
    (fun j hj => by
      have hj0 : j = 0 := by omega
      subst hj0
      rfl)
    (by decide)

/-- C5: invoking the reactivation webhook twice in succession with the same
inventory item and available > 0, where the product resolved carries the
marker tag and the first mutation succeeds, produces exactly one
ActivityLogEntry (REACTIVATE/WEBHOOK): the first call removes the marker
tag and sets the product ACTIVE, and the second call finds no marker tag
and performs no mutation and no log append (it returns the state
unchanged). -/
theorem claim5_webhook_idempotent (shop : String)
    (variantOf : Nat → Option (String × String)) (itemId : Nat) (a : Int)
    (sku pid : String) (p : RemoteProduct) (st : ReactState)
    (mres2 : MutationResult)
    (ha : 0 < a) (hv : variantOf itemId = some (sku, pid))
    (hp : st.products pid = some p) (hid : p.id = pid)
    (hmark : p.tags.contains "auto-archived-oos" = true) :
    (webhookAction shop variantOf itemId (some a) MutationResult.ok st).log
        = st.log ++ [mkWebhookEntry shop sku p] ∧
    (webhookAction shop variantOf itemId (some a) MutationResult.ok st).products pid
        = some { p with
            status := "ACTIVE",
            tags := p.tags.filter fun t => t != "auto-archived-oos" } ∧
    webhookAction shop variantOf itemId (some a) mres2
        (webhookAction shop variantOf itemId (some a) MutationResult.ok st)
      = webhookAction shop variantOf itemId (some a) MutationResult.ok st := by
  have hst1 : webhookAction shop variantOf itemId (some a) MutationResult.ok st
      = { st with
          products := fun q =>
            if q == p.id then
              some { p with
                status := "ACTIVE",
                tags := p.tags.filter fun t => t != "auto-archived-oos" }
            else st.products q,
          log := st.log ++ [mkWebhookEntry shop sku p] } := by
    have hmem : "auto-archived-oos" ∈ p.tags := List.mem_of_elem_eq_true hmark
    unfold webhookAction lookupByItem
    simp [ha, hv, hp, hmem]
  refine ⟨by rw [hst1], by rw [hst1]; simp [hid], ?_⟩
  rw [hst1]
  unfold webhookAction lookupByItem
  simp [ha, hv, hid, not_mem_filter_ne]

/-- C5 witness: the theorem applied to inventory item 7 resolving to the
marked product `markedRemote`, with available = 5 and an `ok` first
mutation; the duplicate delivery is a no-op. -/
theorem claim5_witness :
    (webhookAction "shop.example" variantOf7 7 (some 5) MutationResult.ok
        reactState0).log
      = reactState0.log ++ [mkWebhookEntry "shop.example" "BOOT-1" markedRemote] ∧
    (webhookAction "shop.example" variantOf7 7 (some 5) MutationResult.ok
        reactState0).products "gid://shopify/Product/11"
      = some { markedRemote with
          status := "ACTIVE",
          tags := markedRemote.tags.filter fun t => t != "auto-archived-oos" } ∧
    webhookAction "shop.example" variantOf7 7 (some 5) MutationResult.ok
        (webhookAction "shop.example" variantOf7 7 (some 5) MutationResult.ok
          reactState0)
      = webhookAction "shop.example" variantOf7 7 (some 5) MutationResult.ok
          reactState0 :=
  claim5_webhook_idempotent "shop.example" variantOf7 7 5 "BOOT-1"
    "gid://shopify/Product/11" markedRemote reactState0 MutationResult.ok
    (by decide) (by decide) (by decide) (by decide) (by decide)

/-- C6 (corrected): only the scheduled batch appends a log row exactly when
the remote mutation succeeds. The manual path appends one DEACTIVATE/MANUAL
row per selected product no matter what the mutations did, and the webhook
path appends its REACTIVATE row whenever the marker was found and the
mutation call returned — even with userErrors — omitting it only when the
call throws. -/
theorem claim6_logging_amended :
    (∀ (shop : String) (flags : Nat → Bool) (outc : Nat → MutationResult)
        (cands : List (Product × Nat)) (st : BatchState), (∀ i, flags i = true) →
      (deactivateBatch shop flags outc cands st).log
        = st.log ++ (okFilter outc 0 cands).map (mkAutoEntry shop)) ∧
    (∀ (shop : String) (tagOk updOk : Nat → Bool) (products : List ManualProduct)
        (st : ManualState),
      (manualDeactivateAction shop tagOk updOk products st).log
        = st.log ++ products.map (mkManualEntry shop)) ∧
    (∀ (shop : String) (variantOf : Nat → Option (String × String)) (itemId : Nat)
        (a : Int) (sku pid : String) (p : RemoteProduct) (st : ReactState),
      0 < a → variantOf itemId = some (sku, pid) → st.products pid = some p →
      p.tags.contains "auto-archived-oos" = true →
      (webhookAction shop variantOf itemId (some a)
          MutationResult.userErrors st).log
        = st.log ++ [mkWebhookEntry shop sku p] ∧
      webhookAction shop variantOf itemId (some a) MutationResult.thrown st = st) := by
  refine ⟨?_, ?_, ?_⟩
  · intro shop flags outc cands st hflags
    have h := deactivateBatch_flip shop flags outc cands cands.length st
      (fun j _ => hflags j) (fun hlt => absurd hlt (lt_irrefl _))
    rw [List.take_length] at h
    exact h.1
  · intro shop tagOk updOk products st
    unfold manualDeactivateAction
    cases hc : products.length == 0 with
    | true =>
      have hnil : products = [] := List.length_eq_zero.mp (beq_iff_eq.mp hc)
      subst hnil
      simp
    | false =>
      simp only [hc, Bool.false_eq_true, if_false]
      rw [manualLogAll_log, deactivateProductsRun_log]
  · intro shop variantOf itemId a sku pid p st ha hv hp hmark
    have hmem : "auto-archived-oos" ∈ p.tags := List.mem_of_elem_eq_true hmark
    constructor
    · unfold webhookAction lookupByItem
      simp [ha, hv, hp, hmem]
    · unfold webhookAction lookupByItem
      simp [ha, hv, hp, hmem]

/-- C6 counterexample: the manual path with one selected product whose tag
and status mutations both fail remotely still writes one DEACTIVATE/MANUAL
log row, while the remote product was neither tagged nor drafted — a failed
mutation attempt was logged, contradicting the claim. -/
theorem claim6_counterexample :
    (manualDeactivateAction "shop.example" (fun _ => false) (fun _ => false)
        [manualP] emptyManualState).drafted = [] ∧
    (manualDeactivateAction "shop.example" (fun _ => false) (fun _ => false)
        [manualP] emptyManualState).tagged = [] ∧
    (manualDeactivateAction "shop.example" (fun _ => false) (fun _ => false)
        [manualP] emptyManualState).log
      = [mkManualEntry "shop.example" manualP] := by
  decide

/-- C6 witness: the amended claim applied to the concrete manual run above
and a concrete webhook delivery whose mutation returns userErrors. -/
theorem claim6_witness :
    (manualDeactivateAction "shop.example" (fun _ => false) (fun _ => false)
        [manualP] emptyManualState).log
      = emptyManualState.log ++ [manualP].map (mkManualEntry "shop.example") ∧
    (webhookAction "shop.example" variantOf7 7 (some 5)
        MutationResult.userErrors reactState0).log
      = reactState0.log ++ [mkWebhookEntry "shop.example" "BOOT-1" markedRemote] ∧
    webhookAction "shop.example" variantOf7 7 (some 5)
        MutationResult.thrown reactState0 = reactState0 :=
  ⟨claim6_logging_amended.2.1 "shop.example" (fun _ => false) (fun _ => false)
      [manualP] emptyManualState,
   (claim6_logging_amended.2.2 "shop.example" variantOf7 7 5 "BOOT-1"
      "gid://shopify/Product/11" markedRemote reactState0
      (by decide) (by decide) (by decide) (by decide)).1,
   (claim6_logging_amended.2.2 "shop.example" variantOf7 7 5 "BOOT-1"
      "gid://shopify/Product/11" markedRemote reactState0
      (by decide) (by decide) (by decide) (by decide)).2⟩

/-- C9: a tenant whose settings have automation disabled is never in the
scheduler's selection (`findMany({ isActive: true })`), is never among the
tenants whose pipeline a tick invokes, and `shouldRun` itself rejects it. -/
theorem claim9_disabled_never_selected (all : List DBSettings) (now : Nat)
    (s : DBSettings) (hs : s.isActive = false) :
    s ∉ selectedTenants all ∧ s ∉ tickInvocations all now ∧
    shouldRun s now = false := by
  have hsel : s ∉ selectedTenants all := by
    intro hmem
    have h2 := (List.mem_filter.mp hmem).2
    rw [hs] at h2
    exact absurd h2 (by simp)
  refine ⟨hsel, ?_, ?_⟩
  · intro hmem
    exact hsel (List.mem_filter.mp hmem).1
  · unfold shouldRun
    rw [hs]
    rfl

/-- C9 witness: the theorem applied to a concrete disabled tenant inside a
concrete tenant list. -/
theorem claim9_witness :
    disabledTenant ∉ selectedTenants [disabledTenant, freshTenant] ∧
    disabledTenant ∉ tickInvocations [disabledTenant, freshTenant] 12345 ∧
    shouldRun disabledTenant 12345 = false :=
  claim9_disabled_never_selected [disabledTenant, freshTenant] 12345
    disabledTenant rfl

/-! ## Helper lemmas for the manual paging loop and the date model -/

theorem classifyPageManual_length_le (now cutoff : Nat) :
    ∀ l : List Product, (classifyPageManual now cutoff l).length ≤ l.length := by
  intro l
  induction l with
  | nil => simp [classifyPageManual]
  | cons p ps ih =>
    unfold classifyPageManual
    cases h : classifyManual now cutoff p with
    | none => simp; omega
    | some c => simp; omega

theorem scanPagesManual_bound (now cutoff : Nat) :
    ∀ (pages : List PageResp) (acc : List ProductCandidate),
    (∀ pg ∈ pages, pg.nodes.length ≤ 50) → acc.length ≤ 500 →
    (scanPagesManual now cutoff pages acc).length ≤ 550 := by
  intro pages
  induction pages with
  | nil =>
    intro acc _ ha
    unfold scanPagesManual
    omega
  | cons pg rest ih =>
    intro acc hp ha
    have hpg : (classifyPageManual now cutoff pg.nodes).length ≤ 50 :=
      le_trans (classifyPageManual_length_le now cutoff pg.nodes) (hp pg (by simp))
    unfold scanPagesManual
    by_cases hlen : 500 < (acc ++ classifyPageManual now cutoff pg.nodes).length
    · rw [if_pos hlen]
      rw [List.length_append] at hlen ⊢
      omega
    · rw [if_neg hlen]
      rw [List.length_append] at hlen
      split
      · exact ih _ (fun q hq => hp q (by simp [hq]))
          (by rw [List.length_append]; omega)
      · rw [List.length_append]
        omega

theorem setMinutes_add (t f : Nat) :
    setMinutes t (getMinutes t + f) = t + f * msPerMinute := by
  unfold setMinutes getMinutes msPerMinute
  omega

theorem setDate_add (t f : Nat) :
    setDate t (getDate t + f) = t + f * msPerDay := by
  unfold setDate msPerDay
  omega

/-- C10: the manual scan's paging loop caps its result. Whenever a processed
page leaves more than 500 accumulated candidates, the loop returns at once
without consuming the remaining pages (even if `hasNextPage` was true); and
since each page holds at most 50 nodes and contributes at most that many
candidates, the returned list never exceeds 550 entries. -/
theorem claim10_safety_cap :
    (∀ (now cutoff : Nat) (pages : List PageResp),
      (∀ pg ∈ pages, pg.nodes.length ≤ 50) →
      (scanPagesManual now cutoff pages []).length ≤ 550) ∧
    (∀ (now cutoff : Nat) (pg : PageResp) (rest : List PageResp)
        (acc : List ProductCandidate),
      500 < (acc ++ classifyPageManual now cutoff pg.nodes).length →
      scanPagesManual now cutoff (pg :: rest) acc
        = acc ++ classifyPageManual now cutoff pg.nodes) := by
  constructor
  · intro now cutoff pages hp
    exact scanPagesManual_bound now cutoff pages [] hp (by simp)
  · intro now cutoff pg rest acc hlen
    unfold scanPagesManual
    rw [if_pos hlen]

/-- C10 witness: the bound applied to a concrete one-page fetch, and the
early stop applied to a 501-candidate accumulator with a further page
available. -/
theorem claim10_witness :
    (scanPagesManual 0 0 [onePage] []).length ≤ 550 ∧
    scanPagesManual 0 0 (onePage :: [onePage]) acc501
      = acc501 ++ classifyPageManual 0 0 onePage.nodes :=
  ⟨claim10_safety_cap.1 0 0 [onePage] (by decide),
   claim10_safety_cap.2 0 0 onePage [onePage] acc501
    (by
      rw [List.length_append]
      have h : acc501.length = 501 := by
        unfold acc501
        exact List.length_replicate 501 dummyCandidate
      omega)⟩

/-- C3: with automation on, a tenant that has never run is immediately due;
a tenant with a recorded `lastRunAt = t` is due exactly when
`now ≥ t + interval`, where a minutes interval is exactly
`frequency * 60000` ms (due at the boundary and not one millisecond
before) and a days interval advances `lastRunAt` by `frequency` calendar
days — which, in this fixed-offset (UTC) clock model, equals
`frequency * 86400000` ms; concretely, 2026-01-31 advanced by one day is
2026-02-01. -/
theorem claim3_due_time :
    (∀ (s : DBSettings) (now : Nat), s.isActive = true → s.lastRunAt = none →
      shouldRun s now = true) ∧
    (∀ (s : DBSettings) (now t : Nat), s.isActive = true → s.lastRunAt = some t →
      s.frequencyUnit = "minutes" →
      (shouldRun s now = true ↔ t + s.frequency * msPerMinute ≤ now)) ∧
    (∀ (s : DBSettings) (now t : Nat), s.isActive = true → s.lastRunAt = some t →
      s.frequencyUnit ≠ "minutes" →
      (shouldRun s now = true ↔ t + s.frequency * msPerDay ≤ now)) ∧
    (civilFromDays (jan31 / msPerDay) = (2026, 1, 31) ∧
      getDate jan31 = 31 ∧
      setDate jan31 (getDate jan31 + 1) = jan31 + msPerDay ∧
      civilFromDays (setDate jan31 (getDate jan31 + 1) / msPerDay)
        = (2026, 2, 1)) := by
  refine ⟨?_, ?_, ?_, ?_⟩
  · intro s now hact hlast
    unfold shouldRun
    rw [hact, hlast]
    rfl
  · intro s now t hact hlast hunit
    unfold shouldRun
    rw [hact, hlast]
    have hb : (s.frequencyUnit == "minutes") = true := beq_iff_eq.mpr hunit
    simp only [hb, Bool.not_true, Bool.false_eq_true, if_false, if_true,
      setMinutes_add]
    exact decide_eq_true_iff
  · intro s now t hact hlast hunit
    unfold shouldRun
    rw [hact, hlast]
    have hb : (s.frequencyUnit == "minutes") = false := by
      cases hx : s.frequencyUnit == "minutes"
      · rfl
      · exact absurd (eq_of_beq hx) hunit
    simp only [hb, Bool.not_true, Bool.false_eq_true, if_false, setDate_add]
    exact decide_eq_true_iff
  · refine ⟨by decide, by decide, setDate_add jan31 1, ?_⟩
    rw [setDate_add jan31 1]
    decide

/-- C3 witness: the due test applied to a never-run tenant, to the
30-minute tenant at a concrete instant, and to the 1-day tenant at the next
calendar day. -/
theorem claim3_witness :
    shouldRun freshTenant 12345 = true ∧
    (shouldRun minuteTenant (jan31 + 67 * msPerMinute) = true
      ↔ (jan31 + 37 * msPerMinute) + 30 * msPerMinute ≤ jan31 + 67 * msPerMinute) ∧
    (shouldRun dayTenant (jan31 + msPerDay) = true
      ↔ jan31 + 1 * msPerDay ≤ jan31 + msPerDay) :=
  ⟨claim3_due_time.1 freshTenant 12345 rfl rfl,
   claim3_due_time.2.1 minuteTenant (jan31 + 67 * msPerMinute)
     (jan31 + 37 * msPerMinute) rfl rfl rfl,
   claim3_due_time.2.2.1 dayTenant (jan31 + msPerDay) jan31 rfl rfl
     (by decide)⟩

end InventoryApp
